import Mathlib

/-!
Verification development for the engram-google-adk-vm repository: a shallow
embedding of the two gateway variants (api_server_with_scalar.py and
scalar_docs.py) and the tool adapters (mcp_tools.py, mcp_tools_v2.py,
perplexity_tool.py, perplexity_tool_sync.py), together with theorems that
settle the frozen claims about the natural-language specification.

Modelling conventions:
* JSON values are a plain inductive; Python dicts are insertion-ordered
  association lists and dict assignment replaces the existing entry in place.
* Each HTTP handler is a pure function of the inbound request plus an
  oracle standing for the upstream server; the list of upstream calls the
  handler actually issues is returned alongside the outcome, so claims of
  the form "does not call X" are claims about the trace.
* Exceptions are values: the body of each Python try block is an
  Except-computation, and the except clauses are an explicit wrapper,
  mirroring the control flow of the source including which clause catches
  what (FastAPI HTTPException is a subclass of Exception, so the generic
  catch-all in the source does intercept it).
* Incidental CPython exception message texts (AttributeError and friends)
  are modelled as fixed strings without quote characters; no theorem
  depends on their exact wording.
-/

/-- JSON value, as produced by response.json() in the source. -/
inductive Json where
  | null
  | bool (b : Bool)
  | num (n : Int)
  | str (s : String)
  | arr (items : List Json)
  | obj (fields : List (String × Json))

/-- Lookup of a key in a Python dict (insertion-ordered association list). -/
def lookupField : List (String × Json) → String → Option Json
  | [], _ => none
  | (k2, v2) :: rest, k => if k2 = k then some v2 else lookupField rest k

/-- Python dict assignment d[k] = v: replaces the entry in place, else appends. -/
def setField : List (String × Json) → String → Json → List (String × Json)
  | [], k, v => [(k, v)]
  | (k2, v2) :: rest, k, v =>
      if k2 = k then (k, v) :: rest else (k2, v2) :: setField rest k v

/-- Python truthiness of a JSON value. -/
def Json.truthy : Json → Bool
  | .null => false
  | .bool b => b
  | .num n => n ≠ 0
  | .str s => s ≠ ""
  | .arr l => !l.isEmpty
  | .obj f => !f.isEmpty

/-- Python d.get(k, default): AttributeError message when d is not a dict. -/
def dictGet (d : Json) (k : String) (dflt : Json) : Except String Json :=
  match d with
  | .obj fs => .ok ((lookupField fs k).getD dflt)
  | _ => .error "object has no attribute get"

/-- Python d[0] on a list; IndexError when empty.  Subscripting a non-list
is modelled as a generic runtime error (the source only reaches this with
parsed JSON, and no claim exercises a non-list here). -/
def listIndex0 : Json → Except String Json
  | .arr [] => .error "list index out of range"
  | .arr (x :: _) => .ok x
  | _ => .error "object is not subscriptable"

namespace AdkGateway

/-- One upstream HTTP call made by the message_agent handlers.  The session
creation call carries the path parameters of the POST
/apps/.../users/.../sessions URL; the run call carries its JSON payload. -/
inductive UpCall where
  | createSession (agentName userId : String)
  | runCall (payload : Json)

/-- Result of one upstream call: an HTTP response (status, text body, parsed
JSON body) or a network-level failure (requests.exceptions.RequestException). -/
inductive UpResult where
  | resp (status : Nat) (text : String) (json : Json)
  | netErr (msg : String)

/-- Structured detail of an HTTPException raised by the handler code. -/
inductive Detail where
  | failedCreateSession (upstreamBody : String)
  | failedSendMessage (upstreamBody : String)
  | missingSessionId (sessionData : Json)

/-- An exception escaping the body of the try block of message_agent. -/
inductive PyExc where
  | httpExc (status : Nat) (detail : Detail)
  | requestExc (msg : String)
  | otherExc (msg : String)

/-- Pydantic request model (defaults already applied by the framework). -/
structure MessageAgentRequest where
  message : String
  agentName : String
  sessionId : Option String
  userId : String

/-- Pydantic response model of the facade. -/
structure MessageAgentResponse where
  response : String
  sessionId : String
  agentName : String

/-- Final detail of the HTTPException the caller sees. -/
inductive FinalDetail where
  | connectionError (msg : String)
  | internalError (cause : PyExc)

/-- What the handler delivers to the HTTP layer. -/
inductive Outcome where
  | success (r : MessageAgentResponse)
  | httpError (status : Nat) (detail : FinalDetail)

/-- The two except clauses shared by both message_agent variants:
requests.exceptions.RequestException is re-raised as a 503, every other
exception — including an HTTPException raised inside the try block, since
HTTPException is a subclass of Exception — as a 500 Internal error. -/
def wrapOutcome : Except PyExc MessageAgentResponse → Outcome
  | .ok r => .success r
  | .error (.requestExc m) => .httpError 503 (.connectionError m)
  | .error e => .httpError 500 (.internalError e)

/-- Python `not request.session_id`: None and the empty string are falsy. -/
def sessionIdFalsy : Option String → Bool
  | none => true
  | some s => s = ""

/-- Pydantic construction MessageAgentResponse(response=.., session_id=..):
succeeds when both extracted values are strings, raises a validation error
(an ordinary Exception) otherwise, e.g. when session_id is None. -/
def mkMessageAgentResponse (agentResponse sid : Json) (agentName : String) :
    Except PyExc MessageAgentResponse :=
  match agentResponse, sid with
  | .str a, .str s => .ok ⟨a, s, agentName⟩
  | _, _ => .error (.otherExc "validation error for MessageAgentResponse")

/-- Lift a raw Python runtime error (AttributeError, IndexError, ...) into
the exception type of the handler body. -/
def liftErr (e : Except String Json) : Except PyExc Json :=
  match e with
  | .ok v => .ok v
  | .error m => .error (.otherExc m)

end AdkGateway

namespace scalar_docs

open AdkGateway

/-- Run payload built by scalar_docs.message_agent (lines 111-119). -/
def runPayload (agentName userId : String) (sid : Json) (message : String) : Json :=
  .obj [("appName", .str agentName),
        ("userId", .str userId),
        ("sessionId", sid),
        ("newMessage", .obj [("parts", .arr [.obj [("text", .str message)]]),
                             ("role", .str "user")])]

/-- Inner loop of the response extraction (lines 139-142): walk the parts of
one event, returning the first part whose "text" entry is truthy; the
accumulator is returned unchanged when no part qualifies.  A part that is
not a dict makes the Python membership test "text" in part fail with a
runtime error for the shapes reachable here. -/
def scanParts : List Json → Json → Except PyExc Json
  | [], acc => .ok acc
  | p :: rest, acc =>
    match p with
    | .obj fs =>
      match lookupField fs "text" with
      | some v => if v.truthy then .ok v else scanParts rest acc
      | none => scanParts rest acc
    | _ => .error (.otherExc "argument of type is not a dict")

/-- Python equality test agent_response != "No response" (a non-string JSON
value never equals a Python str, so only the exact string matches). -/
def isNoResponse : Json → Bool
  | .str s => s = "No response"
  | _ => false

/-- Outer loop of the response extraction (lines 136-144): events are
visited in reversed order by the caller; the loop breaks as soon as the
accumulator differs from the literal "No response". -/
def scanEvents : List Json → Json → Except PyExc Json
  | [], acc => .ok acc
  | e :: rest, acc =>
    match e with
    | .obj fs =>
      match (lookupField fs "content").getD (.obj []) with
      | .obj cf =>
        match (lookupField cf "parts").getD (.arr []) with
        | .arr ps =>
          match scanParts ps acc with
          | .error ex => .error ex
          | .ok acc2 =>
            if isNoResponse acc2 then scanEvents rest acc2 else .ok acc2
        | _ => .error (.otherExc "parts is not iterable")
      | _ => .error (.otherExc "object has no attribute get")
    | _ => .error (.otherExc "object has no attribute get")

/-- Response extraction of scalar_docs.message_agent (lines 130-144):
agent_response starts as "No response"; when the run response is a
non-empty list the events are scanned in reverse. -/
def extractResponse (responseData : Json) : Except PyExc Json :=
  match responseData with
  | .arr evs =>
    if evs.isEmpty then .ok (.str "No response")
    else scanEvents evs.reverse (.str "No response")
  | _ => .ok (.str "No response")

/-- Second half of scalar_docs.message_agent (lines 109-150): POST /run with
the payload, abort on non-200, extract the reply, build the response model. -/
def runStep (up : UpCall → UpResult) (sid : Json) (req : MessageAgentRequest)
    (tr : List UpCall) : Except PyExc MessageAgentResponse × List UpCall :=
  let c := UpCall.runCall (runPayload req.agentName req.userId sid req.message)
  match up c with
  | .netErr m => (.error (.requestExc m), tr ++ [c])
  | .resp st _text j =>
    if st = 200 then
      match extractResponse j with
      | .error e => (.error e, tr ++ [c])
      | .ok ar => (mkMessageAgentResponse ar sid req.agentName, tr ++ [c])
    else (.error (.httpExc st (.failedSendMessage _text)), tr ++ [c])

/-- Session-creation branch of scalar_docs.message_agent (lines 88-105):
POST the session URL, abort on non-200, read the "id" field — the source
comments that the field is id, not session_id — and abort with a 500
HTTPException when it is missing or falsy. -/
def createBranch (up : UpCall → UpResult) (req : MessageAgentRequest) :
    Except PyExc MessageAgentResponse × List UpCall :=
  let c := UpCall.createSession req.agentName req.userId
  match up c with
  | .netErr m => (.error (.requestExc m), [c])
  | .resp st _text j =>
    if st = 200 then
      match (liftErr (dictGet j "id" .null) : Except PyExc Json) with
      | .error e => (.error e, [c])
      | .ok idv =>
        if idv.truthy then runStep up idv req [c]
        else (.error (.httpExc 500 (.missingSessionId j)), [c])
    else (.error (.httpExc st (.failedCreateSession _text)), [c])

/-- Body of the try block of scalar_docs.message_agent. -/
def message_agent_inner (up : UpCall → UpResult) (req : MessageAgentRequest) :
    Except PyExc MessageAgentResponse × List UpCall :=
  if sessionIdFalsy req.sessionId then createBranch up req
  else
    match req.sessionId with
    | some s => runStep up (.str s) req []
    | none => createBranch up req

/-- POST /api/message-agent handler of scalar_docs.py (lines 78-155),
including its two except clauses. -/
def message_agent (up : UpCall → UpResult) (req : MessageAgentRequest) :
    Outcome × List UpCall :=
  let r := message_agent_inner up req
  (wrapOutcome r.fst, r.snd)

end scalar_docs

namespace api_server_with_scalar

open AdkGateway

/-- Run payload built by api_server_with_scalar.message_agent (lines 106-119). -/
def runPayload (agentName userId : String) (sid : Json) (message : String) : Json :=
  .obj [("session", .obj [("app", .str agentName),
                          ("user_id", .str userId),
                          ("session_id", sid)]),
        ("messages", .arr [.obj [("role", .str "user"),
                                 ("content", .str message)]]),
        ("stream", .bool false)]

/-- Response extraction of api_server_with_scalar.message_agent (line 131):
response_data.get("candidates", [SOME_DICT])[0].get("content", SOME_DICT)
.get("parts", [SOME_DICT])[0].get("text", "No response") — a chain of dict
gets and list indexings that assumes the run response is a dict. -/
def extractResponse (responseData : Json) : Except PyExc Json := do
  let cands ← liftErr (dictGet responseData "candidates" (.arr [.obj []]))
  let c0 ← liftErr (listIndex0 cands)
  let content ← liftErr (dictGet c0 "content" (.obj []))
  let parts ← liftErr (dictGet content "parts" (.arr [.obj []]))
  let p0 ← liftErr (listIndex0 parts)
  liftErr (dictGet p0 "text" (.str "No response"))

/-- Second half of api_server_with_scalar.message_agent (lines 104-137). -/
def runStep (up : UpCall → UpResult) (sid : Json) (req : MessageAgentRequest)
    (tr : List UpCall) : Except PyExc MessageAgentResponse × List UpCall :=
  let c := UpCall.runCall (runPayload req.agentName req.userId sid req.message)
  match up c with
  | .netErr m => (.error (.requestExc m), tr ++ [c])
  | .resp st _text j =>
    if st = 200 then
      match extractResponse j with
      | .error e => (.error e, tr ++ [c])
      | .ok ar => (mkMessageAgentResponse ar sid req.agentName, tr ++ [c])
    else (.error (.httpExc st (.failedSendMessage _text)), tr ++ [c])

/-- Session-creation branch of api_server_with_scalar.message_agent
(lines 88-100): this variant reads session_data.get("session_id") — absent
from the upstream body, which uses "id" — and has no guard at all: the
possibly-None identifier flows straight into the run call. -/
def createBranch (up : UpCall → UpResult) (req : MessageAgentRequest) :
    Except PyExc MessageAgentResponse × List UpCall :=
  let c := UpCall.createSession req.agentName req.userId
  match up c with
  | .netErr m => (.error (.requestExc m), [c])
  | .resp st _text j =>
    if st = 200 then
      match (liftErr (dictGet j "session_id" .null) : Except PyExc Json) with
      | .error e => (.error e, [c])
      | .ok sid => runStep up sid req [c]
    else (.error (.httpExc st (.failedCreateSession _text)), [c])

/-- Body of the try block of api_server_with_scalar.message_agent. -/
def message_agent_inner (up : UpCall → UpResult) (req : MessageAgentRequest) :
    Except PyExc MessageAgentResponse × List UpCall :=
  if sessionIdFalsy req.sessionId then createBranch up req
  else
    match req.sessionId with
    | some s => runStep up (.str s) req []
    | none => createBranch up req

/-- POST /message-agent handler of api_server_with_scalar.py (lines 78-142),
including its two except clauses. -/
def message_agent (up : UpCall → UpResult) (req : MessageAgentRequest) :
    Outcome × List UpCall :=
  let r := message_agent_inner up req
  (wrapOutcome r.fst, r.snd)

end api_server_with_scalar

namespace ProxyModel

/-- Inbound request as seen by the catch-all proxy route handlers.  Header
names follow the lowercase normalization of dict(request.headers). -/
structure InRequest where
  method : String
  path : String
  query : String
  headers : List (String × String)
  body : String

/-- Outbound request the proxy hands to its HTTP client. -/
structure OutRequest where
  method : String
  url : String
  headers : List (String × String)
  body : String
  followRedirects : Bool

/-- headers.pop("host", None): drop the host entry, keep everything else. -/
def removeHostHeader : List (String × String) → List (String × String)
  | [] => []
  | (k, v) :: rest =>
      if k = "host" then removeHostHeader rest else (k, v) :: removeHostHeader rest

/-- Upstream response to a proxied call. -/
structure UpHttp where
  status : Nat
  headers : List (String × String)
  body : String

/-- Outcome of the outbound call: a response or a raised transport error. -/
inductive NetResult where
  | resp (r : UpHttp)
  | exc (msg : String)

/-- String lookup in a header dict. -/
def lookupStr : List (String × String) → String → Option String
  | [], _ => none
  | (k2, v2) :: rest, k => if k2 = k then some v2 else lookupStr rest k

/-- Python dict assignment for string-valued dicts (CORS header merge). -/
def setStr : List (String × String) → String → String → List (String × String)
  | [], k, v => [(k, v)]
  | (k2, v2) :: rest, k, v =>
      if k2 = k then (k, v) :: rest else (k2, v2) :: setStr rest k v

end ProxyModel

namespace api_server_with_scalar

open ProxyModel

/-- URL and request assembly of the proxy handler (lines 150-169):
http://localhost:8001/ plus path, query appended when present, headers
copied minus host, body passed through, allow_redirects=False. -/
def proxyOutbound (r : InRequest) : OutRequest :=
  { method := r.method
    url := "http://localhost:8001/" ++ r.path ++
           (if r.query = "" then "" else "?" ++ r.query)
    headers := removeHostHeader r.headers
    body := r.body
    followRedirects := false }

/-- What the proxy handler returns: a StreamingResponse copying the
upstream status, headers and (concatenated 1024-byte chunks of the) body,
or — in the except branch — the bare Python tuple (dict, 500), which is the
literal return value of line 178. -/
inductive ProxyReply where
  | streamed (status : Nat) (headers : List (String × String)) (body : String)
  | tupleReturn (bodyJson : Json) (pairedStatus : Nat)

/-- Catch-all proxy route of api_server_with_scalar.py (lines 145-178). -/
def proxy (net : OutRequest → NetResult) (r : InRequest) : ProxyReply :=
  match net (proxyOutbound r) with
  | .resp u => .streamed u.status u.headers u.body
  | .exc m => .tupleReturn (.obj [("error", .str m)]) 500

end api_server_with_scalar

namespace scalar_docs

open ProxyModel

/-- URL and request assembly of proxy_api (lines 560-583): target base is
http://localhost:8000/, query appended when present, headers copied minus
host, body passed through.  httpx.AsyncClient does not follow redirects by
default, so the upstream 3xx passes through. -/
def proxyOutbound (r : InRequest) : OutRequest :=
  { method := r.method
    url := "http://localhost:8000/" ++ r.path ++
           (if r.query = "" then "" else "?" ++ r.query)
    headers := removeHostHeader r.headers
    body := r.body
    followRedirects := false }

/-- The three CORS headers proxy_api merges over the upstream headers
(lines 589-594) and also attaches to its error response (lines 600-604). -/
def corsHeaderList : List (String × String) :=
  [("Access-Control-Allow-Origin", "*"),
   ("Access-Control-Allow-Methods", "GET, POST, PUT, DELETE, OPTIONS, HEAD, PATCH"),
   ("Access-Control-Allow-Headers", "*")]

/-- Python dict merge of the upstream headers with the CORS trio; the CORS
entries override same-named upstream entries. -/
def corsMerge (hs : List (String × String)) : List (String × String) :=
  setStr (setStr (setStr hs
    "Access-Control-Allow-Origin" "*")
    "Access-Control-Allow-Methods" "GET, POST, PUT, DELETE, OPTIONS, HEAD, PATCH")
    "Access-Control-Allow-Headers" "*"

/-- What proxy_api returns: a Response copying status and body with merged
headers, or a JSONResponse error object with status 500 and CORS headers. -/
inductive ProxyReply where
  | response (status : Nat) (headers : List (String × String)) (body : String)
  | jsonResponse (bodyJson : Json) (status : Nat) (headers : List (String × String))

/-- /api/{path} catch-all proxy of scalar_docs.py (lines 557-605). -/
def proxy_api (net : OutRequest → NetResult) (r : InRequest) : ProxyReply :=
  match net (proxyOutbound r) with
  | .resp u => .response u.status (corsMerge u.headers) u.body
  | .exc m => .jsonResponse (.obj [("error", .str m)]) 500 corsHeaderList

end scalar_docs

namespace McpModel

/-- One provider entry of the mcps mapping in mcp_config.json. -/
structure McpConfig where
  command : String
  args : List String
  env : List (String × String)

/-- A subprocess the tool would spawn: the command line and the JSON-RPC
request written to its stdin. -/
structure SpawnRecord where
  cmd : List String
  stdinRequest : Json

/-- Result of running the configured child process to completion: the
json.loads parse of its stdout, or a raised OS-level failure. -/
inductive SpawnOutcome where
  | completed (stdoutParse : Except String Json)
  | spawnErr (msg : String)

/-- Provider lookup in the loaded configuration mapping. -/
def findConfig : List (String × McpConfig) → String → Option McpConfig
  | [], _ => none
  | (k, c) :: rest, name => if k = name then some c else findConfig rest name

/-- A single quote character, used by the f-string error messages below. -/
def sq : String := (Char.ofNat 39).toString

/-- The error message both MCPTool variants build for an unknown provider:
f-string MCP {name} not configured with the name in single quotes. -/
def unknownMcpMsg (name : String) : String :=
  "MCP " ++ sq ++ name ++ sq ++ " not configured"

/-- The JSON-RPC request both MCPTool variants write to the child stdin. -/
def mcpRequest (query : String) : Json :=
  .obj [("jsonrpc", .str "2.0"),
        ("method", .str "tools/call"),
        ("params", .obj [("name", .str "perplexity_ask"),
                         ("arguments", .obj [("messages",
                            .arr [.obj [("role", .str "user"),
                                        ("content", .str query)]])])]),
        ("id", .num 1)]

end McpModel

namespace mcp_tools

open McpModel

/-- MCPTool.run of mcp_tools.py (lines 43-108).  Returns the dict-valued
result together with the list of subprocesses spawned.  The unknown-provider
check precedes any subprocess work; afterwards the child output is parsed,
an error key is passed through, and the first textual content item is
wrapped as a response dict.  Every exception of the spawn/parse phase is
caught and returned as an MCP execution error dict. -/
def MCPTool.run (configs : List (String × McpConfig))
    (subproc : SpawnRecord → SpawnOutcome) (query mcpName : String) :
    Json × List SpawnRecord :=
  match findConfig configs mcpName with
  | none => (.obj [("error", .str (unknownMcpMsg mcpName))], [])
  | some config =>
    let rec0 : SpawnRecord := ⟨config.command :: config.args, mcpRequest query⟩
    match subproc rec0 with
    | .spawnErr m =>
      (.obj [("error", .str ("MCP execution error: " ++ m))], [rec0])
    | .completed (.error pm) =>
      (.obj [("error", .str ("MCP execution error: " ++ pm))], [rec0])
    | .completed (.ok response) =>
      match response with
      | .obj fs =>
        match lookupField fs "error" with
        | some errv => (.obj [("error", errv)], [rec0])
        | none =>
          let result := (lookupField fs "result").getD (.obj [])
          match result with
          | .obj rf =>
            match (lookupField rf "content").getD (.arr []) with
            | .arr (c0 :: _) =>
              match c0 with
              | .obj cf =>
                (.obj [("response",
                  (lookupField cf "text").getD (.str "No response from MCP"))],
                 [rec0])
              | _ =>
                (.obj [("error", .str "MCP execution error: object has no attribute get")],
                 [rec0])
            | .arr [] => (.obj [("response", .str "No response from MCP")], [rec0])
            | _ => (.obj [("response", .str "No response from MCP")], [rec0])
          | _ =>
            (.obj [("error", .str "MCP execution error: object has no attribute get")],
             [rec0])
      | _ =>
        (.obj [("error", .str "MCP execution error: argument is not a dict")], [rec0])

end mcp_tools

namespace mcp_tools_v2

open McpModel

/-- The query and mcp_name arguments as read from the args dict by
run_async: args.get("query", "") and args.get("mcp_name", "perplexity-ask"). -/
def argsQuery (args : List (String × String)) : String :=
  match args with
  | [] => ""
  | (k, v) :: rest => if k = "query" then v else argsQuery rest

/-- MCPTool.run_async of mcp_tools_v2.py (lines 37-105).  Identical control
flow to the v1 tool except that the success and failure results of the
subprocess phase are plain strings rather than dicts; the unknown-provider
result is still the error dict. -/
def MCPTool.run_async (configs : List (String × McpConfig))
    (subproc : SpawnRecord → SpawnOutcome) (query mcpName : String) :
    Json × List SpawnRecord :=
  match findConfig configs mcpName with
  | none => (.obj [("error", .str (unknownMcpMsg mcpName))], [])
  | some config =>
    let rec0 : SpawnRecord := ⟨config.command :: config.args, mcpRequest query⟩
    match subproc rec0 with
    | .spawnErr m => (.str ("MCP execution error: " ++ m), [rec0])
    | .completed (.error pm) => (.str ("MCP execution error: " ++ pm), [rec0])
    | .completed (.ok response) =>
      match response with
      | .obj fs =>
        match lookupField fs "error" with
        | some errv => (.obj [("error", errv)], [rec0])
        | none =>
          let result := (lookupField fs "result").getD (.obj [])
          match result with
          | .obj rf =>
            match (lookupField rf "content").getD (.arr []) with
            | .arr (c0 :: _) =>
              match c0 with
              | .obj cf =>
                ((lookupField cf "text").getD (.str "No response from MCP"), [rec0])
              | _ =>
                (.str "MCP execution error: object has no attribute get", [rec0])
            | .arr [] => (.str "No response from MCP", [rec0])
            | _ => (.str "No response from MCP", [rec0])
          | _ => (.str "MCP execution error: object has no attribute get", [rec0])
      | _ => (.str "MCP execution error: argument is not a dict", [rec0])

/-- PerplexitySearchTool.run_async of mcp_tools_v2.py (lines 118-130): the
empty-query guard, then delegation to MCPTool.run_async with the
perplexity-ask provider. -/
def PerplexitySearchTool.run_async (configs : List (String × McpConfig))
    (subproc : SpawnRecord → SpawnOutcome) (args : List (String × String)) :
    Json × List SpawnRecord :=
  let query := argsQuery args
  if query = "" then (.str "Error: No search query provided", [])
  else MCPTool.run_async configs subproc query "perplexity-ask"

end mcp_tools_v2

namespace PerplexityModel

/-- Simulated outcome of the outbound POST to the Perplexity chat
completions endpoint: a 200 with a parsed JSON body, a non-200 with a
status and text body, or a raised transport exception. -/
inductive HttpOutcome where
  | ok (body : Json)
  | errStatus (status : Nat) (text : String)
  | exc (msg : String)

end PerplexityModel

namespace perplexity_tool_sync

open PerplexityModel

/-- Content extraction of search_perplexity_sync (line 56):
data.get("choices", [SOME_DICT])[0].get("message", SOME_DICT)
.get("content", "No response from Perplexity"). -/
def extractContent (data : Json) : Except String String := do
  let choices ← dictGet data "choices" (.arr [.obj []])
  let c0 ← listIndex0 choices
  let message ← dictGet c0 "message" (.obj [])
  let content ← dictGet message "content" (.str "No response from Perplexity")
  match content with
  | .str s => .ok s
  | _ => .error "content is not a string"

/-- search_perplexity_sync of perplexity_tool_sync.py (lines 12-61).  The
API key is a hardcoded non-empty literal and there is no query guard: the
outbound POST is always attempted.  The Boolean records whether the
outbound HTTP call was made. -/
def search_perplexity_sync (query : String) (outcome : HttpOutcome) :
    String × Bool :=
  let _ := query
  match outcome with
  | .ok body =>
    (match extractContent body with
     | .ok content => "Search Results:\n\n" ++ content
     | .error m => "Error searching: " ++ m, true)
  | .errStatus st text =>
    ("Error: Perplexity API returned status " ++ toString st ++ ": " ++ text, true)
  | .exc m => ("Error searching: " ++ m, true)

/-- Argument extraction shared by the class-based tools: args.get("query", ""). -/
def argsQuery (args : List (String × String)) : String :=
  match args with
  | [] => ""
  | (k, v) :: rest => if k = "query" then v else argsQuery rest

/-- PerplexitySearchTool.run_async of perplexity_tool_sync.py (lines 73-80):
the empty-query guard, then delegation to search_perplexity_sync. -/
def PerplexitySearchTool.run_async (args : List (String × String))
    (outcome : HttpOutcome) : String × Bool :=
  let query := argsQuery args
  if query = "" then ("Error: No search query provided", false)
  else search_perplexity_sync query outcome

end perplexity_tool_sync

namespace perplexity_tool

open PerplexityModel

/-- Content extraction of PerplexitySearchTool.run_async (line 69), the
same get-chain as the synchronous variant. -/
def extractContent (data : Json) : Except String String := do
  let choices ← dictGet data "choices" (.arr [.obj []])
  let c0 ← listIndex0 choices
  let message ← dictGet c0 "message" (.obj [])
  let content ← dictGet message "content" (.str "No response from Perplexity")
  match content with
  | .str s => .ok s
  | _ => .error "content is not a string"

/-- Argument extraction: args.get("query", ""). -/
def argsQuery (args : List (String × String)) : String :=
  match args with
  | [] => ""
  | (k, v) :: rest => if k = "query" then v else argsQuery rest

/-- PerplexitySearchTool.run_async of perplexity_tool.py (lines 34-75): the
empty-query guard, the missing-API-key guard, then the outbound POST whose
outcome is mapped to a result string exactly as in the sync variant.  The
Boolean records whether the outbound HTTP call was made. -/
def PerplexitySearchTool.run_async (args : List (String × String))
    (apiKey : String) (outcome : HttpOutcome) : String × Bool :=
  let query := argsQuery args
  if query = "" then ("Error: No search query provided", false)
  else if apiKey = "" then ("Error: No Perplexity API key configured", false)
  else
    match outcome with
    | .ok body =>
      (match extractContent body with
       | .ok content => "Search Results:\n\n" ++ content
       | .error m => "Error searching: " ++ m, true)
    | .errStatus st text =>
      ("Error: Perplexity API returned status " ++ toString st ++ ": " ++ text, true)
    | .exc m => ("Error searching: " ++ m, true)

end perplexity_tool

namespace AugmentModel

/-- Read the nested value at a key path: spec[k1][k2]...; a missing key or
an indexing step into a non-dict raises (KeyError / TypeError), modelled as
the error case. -/
def getPath : Json → List String → Except Unit Json
  | j, [] => .ok j
  | .obj fs, k :: rest =>
    match lookupField fs k with
    | some v => getPath v rest
    | none => .error ()
  | _, _ :: _ => .error ()

/-- Write the nested value at a key path: spec[k1]...[kn] = v.  The final
assignment creates or replaces the entry; every intermediate step must find
an existing dict entry, exactly as in Python. -/
def setPath : Json → List String → Json → Except Unit Json
  | _, [], v => .ok v
  | .obj fs, [k], v => .ok (.obj (setField fs k v))
  | .obj fs, k :: k2 :: rest, v =>
    match lookupField fs k with
    | some sub =>
      match setPath sub (k2 :: rest) v with
      | .ok sub2 => .ok (.obj (setField fs k sub2))
      | .error e => .error e
    | none => .error ()
  | _, _ :: _, _ => .error ()

/-- The guarded-create statement `if k not in spec[p]: spec[p][k] = SOME_DICT`:
leaves the document alone when the key is present, inserts an empty dict
otherwise.  Testing membership on a non-dict is modelled as an error. -/
def ensureAt (j : Json) (p : List String) (k : String) : Except Unit Json :=
  match getPath j p with
  | .error e => .error e
  | .ok (.obj fs) =>
    if (lookupField fs k).isSome then .ok j
    else setPath j (p ++ [k]) (.obj [])
  | .ok _ => .error ()

/-- The membership test `k in spec[p]`. -/
def keyInPath (j : Json) (p : List String) (k : String) : Except Unit Bool :=
  match getPath j p with
  | .error e => .error e
  | .ok (.obj fs) => .ok (lookupField fs k).isSome
  | .ok _ => .error ()

end AugmentModel

namespace scalar_docs

open AugmentModel

/-- The constant payloads openapi_proxy writes into the upstream schema:
the rewritten title and description, three handwritten operation objects,
two component schemas, and the four deprecation entries for /list-apps.
Every one of them is a fixed literal in the source (lines 271-531),
independent of the fetched document, so the augmentation is stated for
arbitrary values of these constants. -/
structure AugmentConsts where
  title : Json
  description : Json
  listAgentsOp : Json
  agentsOp : Json
  messageAgentOp : Json
  requestSchema : Json
  responseSchema : Json
  depSummary : Json
  depDescription : Json
  depTags : Json

/-- Schema augmentation performed by openapi_proxy of scalar_docs.py
(lines 263-533): rewrite info.title and info.description, inject the
/list-agents, /agents and /message-agent path entries, create the
components/schemas containers when absent, inject the two component
schemas, and mark /list-apps deprecated when that path is present.  The
surrounding except clause (line 534) turns the error case into an error
payload, which is not a schema document. -/
def openapi_proxy_augment (c : AugmentConsts) (doc : Json) : Except Unit Json := do
  let d1 ← setPath doc ["info", "title"] c.title
  let d2 ← setPath d1 ["info", "description"] c.description
  let d3 ← setPath d2 ["paths", "/list-agents"] c.listAgentsOp
  let d4 ← setPath d3 ["paths", "/agents"] c.agentsOp
  let d5 ← setPath d4 ["paths", "/message-agent"] c.messageAgentOp
  let d6 ← ensureAt d5 [] "components"
  let d7 ← ensureAt d6 ["components"] "schemas"
  let d8 ← setPath d7 ["components", "schemas", "MessageAgentRequest"] c.requestSchema
  let d9 ← setPath d8 ["components", "schemas", "MessageAgentResponse"] c.responseSchema
  let hasListApps ← keyInPath d9 ["paths"] "/list-apps"
  if hasListApps then do
    let e1 ← setPath d9 ["paths", "/list-apps", "get", "summary"] c.depSummary
    let e2 ← setPath e1 ["paths", "/list-apps", "get", "description"] c.depDescription
    let e3 ← setPath e2 ["paths", "/list-apps", "get", "tags"] c.depTags
    setPath e3 ["paths", "/list-apps", "get", "deprecated"] (.bool true)
  else pure d9

end scalar_docs

namespace api_server_with_scalar

open AugmentModel

/-- The constant payloads get_openapi writes into the upstream schema
(lines 236-414): two operation objects, two component schemas, and the
rewritten title and description.  All are fixed literals in the source. -/
structure AugmentConsts where
  agentsOp : Json
  messageAgentOp : Json
  requestSchema : Json
  responseSchema : Json
  title : Json
  description : Json

/-- Schema augmentation performed by get_openapi of
api_server_with_scalar.py (lines 224-416): create the paths container when
absent, inject the /agents and /message-agent path entries, create the
components/schemas containers when absent, inject the two component
schemas, then rewrite info.title and info.description. -/
def get_openapi_augment (c : AugmentConsts) (doc : Json) : Except Unit Json := do
  let d1 ← ensureAt doc [] "paths"
  let d2 ← setPath d1 ["paths", "/agents"] c.agentsOp
  let d3 ← setPath d2 ["paths", "/message-agent"] c.messageAgentOp
  let d4 ← ensureAt d3 [] "components"
  let d5 ← ensureAt d4 ["components"] "schemas"
  let d6 ← setPath d5 ["components", "schemas", "MessageAgentRequest"] c.requestSchema
  let d7 ← setPath d6 ["components", "schemas", "MessageAgentResponse"] c.responseSchema
  let d8 ← setPath d7 ["info", "title"] c.title
  setPath d8 ["info", "description"] c.description

end api_server_with_scalar

namespace ProxyModel

theorem lookupStr_removeHost_host (hs : List (String × String)) :
    lookupStr (removeHostHeader hs) "host" = none := by
  induction hs with
  | nil => rfl
  | cons kv rest ih =>
    obtain ⟨k, v⟩ := kv
    by_cases h : k = "host" <;> simp [removeHostHeader, lookupStr, h, ih]

theorem lookupStr_removeHost_other (hs : List (String × String)) (k : String)
    (hk : k ≠ "host") :
    lookupStr (removeHostHeader hs) k = lookupStr hs k := by
  induction hs with
  | nil => rfl
  | cons kv rest ih =>
    obtain ⟨k2, v⟩ := kv
    by_cases h : k2 = "host"
    · have hne : ¬ k2 = k := fun hh => hk (hh.symm.trans h)
      simp [removeHostHeader, lookupStr, h, hne, Ne.symm hk, ih]
    · by_cases h2 : k2 = k <;>
        simp [removeHostHeader, lookupStr, h, h2, hk, ih]

end ProxyModel

namespace ClaimStubs

open AdkGateway

/-- The stub upstream of C1: session creation returns 200 with body
json id S1, run returns 200 with a single text event saying hello. -/
def stubUpC1 : UpCall → UpResult := fun c =>
  match c with
  | .createSession _ _ => .resp 200 "" (.obj [("id", .str "S1")])
  | .runCall _ =>
      .resp 200 ""
        (.arr [.obj [("content",
          .obj [("parts", .arr [.obj [("text", .str "hello")]])])]])

/-- Run response whose last event carries the text No response and whose
first event carries the text earlier. -/
def evsSentinel : List Json :=
  [.obj [("content", .obj [("parts", .arr [.obj [("text", .str "earlier")]])])],
   .obj [("content", .obj [("parts", .arr [.obj [("text", .str "No response")]])])]]

/-- Stub upstream of the C2 counterexample. -/
def stubUpC2 : UpCall → UpResult := fun c =>
  match c with
  | .createSession _ _ => .resp 200 "" (.obj [("id", .str "S1")])
  | .runCall _ => .resp 200 "" (.arr evsSentinel)

/-- Stub upstream of C3: session creation fails with a 404. -/
def stubUp404 : UpCall → UpResult := fun c =>
  match c with
  | .createSession _ _ => .resp 404 "not found" .null
  | .runCall _ => .resp 200 "" (.arr [])

/-- Stub upstream of C6: session creation succeeds with the given body
fields, run succeeds with a null body. -/
def stubSess (fs : List (String × Json)) : UpCall → UpResult := fun c =>
  match c with
  | .createSession _ _ => .resp 200 "" (.obj fs)
  | .runCall _ => .resp 200 "" .null

end ClaimStubs

open AdkGateway ClaimStubs in
/-- C1 (amended): for every /api/message-agent request with a set message,
no session_id and default agent_name/user_id, against the stub upstream
that answers session-create with 200 body id S1 and run with 200 body
containing one text event hello, the scalar_docs facade returns
response hello, session_id S1 and the default agent name; the
api_server_with_scalar variant, however, reads the absent session_id field
and indexes the run list as a dict, so the same stub yields a 500
Internal error there instead of the claimed success. -/
theorem C1_message_agent_stub (msg : String) :
    (scalar_docs.message_agent stubUpC1
        ⟨msg, "revsup-candidate-qualify", none, "default_user"⟩).fst
      = .success ⟨"hello", "S1", "revsup-candidate-qualify"⟩
    ∧ (api_server_with_scalar.message_agent stubUpC1
        ⟨msg, "revsup_candidate_qualify", none, "default_user"⟩).fst
      = .httpError 500 (.internalError (.otherExc "object has no attribute get")) :=
  ⟨rfl, rfl⟩

open AdkGateway ClaimStubs in
/-- C1 counterexample: at the stub of the claim, the api_server_with_scalar
variant of the facade does not return the claimed success value at all —
it aborts with a 500 Internal error, refuting the claim for that variant. -/
theorem C1_counterexample :
    (api_server_with_scalar.message_agent stubUpC1
        ⟨"hi", "revsup_candidate_qualify", none, "default_user"⟩).fst
      = .httpError 500 (.internalError (.otherExc "object has no attribute get"))
    ∧ ∀ r : MessageAgentResponse,
        (api_server_with_scalar.message_agent stubUpC1
            ⟨"hi", "revsup_candidate_qualify", none, "default_user"⟩).fst
          ≠ .success r := by
  refine ⟨rfl, fun r h => ?_⟩
  rw [(rfl :
    (api_server_with_scalar.message_agent stubUpC1
        ⟨"hi", "revsup_candidate_qualify", none, "default_user"⟩).fst
      = .httpError 500 (.internalError (.otherExc "object has no attribute get")))] at h
  exact Outcome.noConfusion h

namespace scalar_docs

open AdkGateway

/-- An event is shaped when it is a dict whose content entry (dict default)
is a dict, whose parts entry (list default) is a list of dicts — the shape
of the upstream run events the extraction loop is written for. -/
def shapedEvent : Json → Bool
  | .obj fs =>
    match (lookupField fs "content").getD (.obj []) with
    | .obj cf =>
      match (lookupField cf "parts").getD (.arr []) with
      | .arr ps => ps.all (fun p => match p with | .obj _ => true | _ => false)
      | _ => false
    | _ => false
  | _ => false

/-- Specification-side reading of one part: its text entry when truthy. -/
def partText (p : Json) : Option Json :=
  match p with
  | .obj pf =>
    match lookupField pf "text" with
    | some v => if v.truthy then some v else none
    | none => none
  | _ => none

/-- Specification-side reading of one event: the first part whose text
entry is truthy. -/
def eventFirstText (e : Json) : Option Json :=
  match e with
  | .obj fs =>
    match (lookupField fs "content").getD (.obj []) with
    | .obj cf =>
      match (lookupField cf "parts").getD (.arr []) with
      | .arr ps => ps.findSome? partText
      | _ => none
    | _ => none
  | _ => none

/-- Specification-side reading of one event, discarding a text equal to the
literal No response (such a text cannot stop the scanning loop). -/
def eventTextNonSentinel (e : Json) : Option Json :=
  (eventFirstText e).bind (fun t => if isNoResponse t then none else some t)

theorem scanParts_shaped (ps : List Json) (acc : Json)
    (h : ps.all (fun p => match p with | .obj _ => true | _ => false) = true) :
    scanParts ps acc = .ok ((ps.findSome? partText).getD acc) := by
  induction ps with
  | nil => rfl
  | cons p rest ih =>
    match p with
    | .obj pf =>
      simp only [List.all_cons, Bool.and_eq_true] at h
      have hrest := ih h.2
      simp only [scanParts, List.findSome?, partText]
      match hv : lookupField pf "text" with
      | some v =>
        by_cases ht : v.truthy <;> simp [hv, ht, hrest]
      | none => simp [hv, hrest]
    | .null | .bool _ | .num _ | .str _ | .arr _ => simp at h

theorem scanEvents_shaped (evs : List Json)
    (h : evs.all shapedEvent = true) :
    scanEvents evs (.str "No response")
      = .ok ((evs.findSome? eventTextNonSentinel).getD (.str "No response")) := by
  induction evs with
  | nil => rfl
  | cons e rest ih =>
    simp only [List.all_cons, Bool.and_eq_true] at h
    have hrest := ih h.2
    have he := h.1
    match e with
    | .obj fs =>
      simp only [shapedEvent] at he
      simp only [scanEvents, List.findSome?, eventTextNonSentinel, eventFirstText]
      match hc : (lookupField fs "content").getD (.obj []) with
      | .obj cf =>
        rw [hc] at he
        dsimp only at he ⊢
        match hp : (lookupField cf "parts").getD (.arr []) with
        | .arr ps =>
          rw [hp] at he
          dsimp only at he ⊢
          rw [scanParts_shaped ps (.str "No response") he]
          dsimp only
          match hf : ps.findSome? partText with
          | some t =>
            by_cases hs : isNoResponse t
            · have hts : t = .str "No response" := by
                match t with
                | .str s =>
                  simp only [isNoResponse, decide_eq_true_eq] at hs
                  rw [hs]
                | .null | .bool _ | .num _ | .arr _ | .obj _ => simp [isNoResponse] at hs
              simp [hts, isNoResponse, hrest]
            · simp [hs]
          | none => simp [isNoResponse, hrest]
        | .null | .bool _ | .num _ | .str _ | .obj _ => rw [hp] at he; simp at he
      | .null | .bool _ | .num _ | .str _ | .arr _ => rw [hc] at he; simp at he
    | .null | .bool _ | .num _ | .str _ | .arr _ => simp [shapedEvent] at he

end scalar_docs

/-- C2 (amended): for every run response that is a list of shaped events,
the scalar_docs facade extraction scans the events in reverse and returns
the first text (from the end) that differs from the literal No response;
an event whose first truthy text equals the literal No response does not
stop the scan, so an earlier event can win; when no event yields such a
text the literal No response is returned.  (The api_server_with_scalar
variant never performs this scan: it indexes the run response as a dict.) -/
theorem C2_reverse_scan (evs : List Json) (h : evs.all scalar_docs.shapedEvent = true) :
    scalar_docs.extractResponse (.arr evs)
      = .ok ((evs.reverse.findSome? scalar_docs.eventTextNonSentinel).getD
              (.str "No response")) := by
  unfold scalar_docs.extractResponse
  by_cases he : evs.isEmpty
  · match evs, he with
    | [], _ => simp
  · simp only [he, if_false, Bool.false_eq_true]
    exact scalar_docs.scanEvents_shaped evs.reverse
      (by rw [List.all_eq_true] at h ⊢; intro x hx; exact h x (List.mem_reverse.mp hx))

/-- C2 witness: a concrete shaped two-event list where the second event has
no text part and the first carries the text hi; the extraction returns hi. -/
theorem C2_reverse_scan_witness :
    ([.obj [("content", .obj [("parts", .arr [.obj [("text", .str "hi")]])])],
      .obj [("content", .obj [("parts", .arr [.obj [("functionCall", .str "tool")]])])]]
        : List Json).all scalar_docs.shapedEvent = true
    ∧ scalar_docs.extractResponse
        (.arr [.obj [("content", .obj [("parts", .arr [.obj [("text", .str "hi")]])])],
               .obj [("content", .obj [("parts", .arr [.obj [("functionCall", .str "tool")]])])]])
      = .ok (.str "hi") :=
  ⟨by decide, C2_reverse_scan _ (by decide)⟩

open AdkGateway ClaimStubs in
/-- C2 counterexample: the last event of the stub run response carries the
non-empty text No response, so the claim says the facade must return that
text; the code keeps scanning and returns the text earlier of the first
event instead. -/
theorem C2_counterexample :
    (scalar_docs.message_agent stubUpC2
        ⟨"hi", "revsup-candidate-qualify", some "S", "default_user"⟩).fst
      = .success ⟨"earlier", "S", "revsup-candidate-qualify"⟩
    ∧ "earlier" ≠ "No response" :=
  ⟨rfl, by decide⟩

open AdkGateway ClaimStubs in
/-- C3: the claim says a non-2xx upstream status at either step aborts with
that status and is never collapsed into the 500 tier; the code violates
this — the HTTPException carrying the upstream 404 is raised inside the try
block and intercepted by the generic except Exception clause, which rewraps
it as a 500 Internal error in both gateway variants.  The network tier
(503) does remain distinguishable, as the last conjuncts show. -/
theorem C3_upstream_status_collapsed :
    (scalar_docs.message_agent stubUp404
        ⟨"hi", "revsup-candidate-qualify", none, "default_user"⟩).fst
      = .httpError 500 (.internalError (.httpExc 404 (.failedCreateSession "not found")))
    ∧ (api_server_with_scalar.message_agent stubUp404
        ⟨"hi", "revsup_candidate_qualify", none, "default_user"⟩).fst
      = .httpError 500 (.internalError (.httpExc 404 (.failedCreateSession "not found")))
    ∧ (500 : Nat) ≠ 404
    ∧ (scalar_docs.message_agent (fun _ => .netErr "refused")
        ⟨"hi", "revsup-candidate-qualify", none, "default_user"⟩).fst
      = .httpError 503 (.connectionError "refused")
    ∧ (api_server_with_scalar.message_agent (fun _ => .netErr "refused")
        ⟨"hi", "revsup_candidate_qualify", none, "default_user"⟩).fst
      = .httpError 503 (.connectionError "refused") :=
  ⟨rfl, rfl, by decide, rfl, rfl⟩

open ProxyModel in
/-- C4 (amended): both proxy handlers forward the inbound method, body,
path and query unchanged, copy the headers verbatim except that the host
entry is removed, do not follow redirects, and on upstream success return
the upstream status and body unchanged; the api_server_with_scalar variant
also returns the upstream headers unchanged, while the scalar_docs variant
returns the upstream headers merged with (and overridden by) its three
CORS headers. -/
theorem C4_proxy_forwarding (r : InRequest) :
    ((api_server_with_scalar.proxyOutbound r).method = r.method
      ∧ (api_server_with_scalar.proxyOutbound r).body = r.body
      ∧ (api_server_with_scalar.proxyOutbound r).url
          = "http://localhost:8001/" ++ r.path ++
            (if r.query = "" then "" else "?" ++ r.query)
      ∧ (api_server_with_scalar.proxyOutbound r).followRedirects = false
      ∧ lookupStr (api_server_with_scalar.proxyOutbound r).headers "host" = none
      ∧ ∀ k, k ≠ "host" →
          lookupStr (api_server_with_scalar.proxyOutbound r).headers k
            = lookupStr r.headers k)
    ∧ ((scalar_docs.proxyOutbound r).method = r.method
      ∧ (scalar_docs.proxyOutbound r).body = r.body
      ∧ (scalar_docs.proxyOutbound r).url
          = "http://localhost:8000/" ++ r.path ++
            (if r.query = "" then "" else "?" ++ r.query)
      ∧ (scalar_docs.proxyOutbound r).followRedirects = false
      ∧ lookupStr (scalar_docs.proxyOutbound r).headers "host" = none
      ∧ ∀ k, k ≠ "host" →
          lookupStr (scalar_docs.proxyOutbound r).headers k = lookupStr r.headers k)
    ∧ (∀ net u, net (api_server_with_scalar.proxyOutbound r) = .resp u →
        api_server_with_scalar.proxy net r = .streamed u.status u.headers u.body)
    ∧ (∀ net u, net (scalar_docs.proxyOutbound r) = .resp u →
        scalar_docs.proxy_api net r
          = .response u.status (scalar_docs.corsMerge u.headers) u.body) := by
  refine ⟨⟨rfl, rfl, rfl, rfl, lookupStr_removeHost_host r.headers,
            fun k hk => lookupStr_removeHost_other r.headers k hk⟩,
          ⟨rfl, rfl, rfl, rfl, lookupStr_removeHost_host r.headers,
            fun k hk => lookupStr_removeHost_other r.headers k hk⟩,
          fun net u h => ?_, fun net u h => ?_⟩
  · unfold api_server_with_scalar.proxy
    rw [h]
  · unfold scalar_docs.proxy_api
    rw [h]

open ProxyModel in
/-- C4 witness: a concrete request with an accept header and a host header;
the forwarded accept header survives, and a concrete successful upstream
response is passed through by the api_server_with_scalar proxy. -/
theorem C4_proxy_forwarding_witness :
    ("accept" : String) ≠ "host"
    ∧ lookupStr (api_server_with_scalar.proxyOutbound
        ⟨"GET", "run", "", [("host", "h"), ("accept", "x")], ""⟩).headers "accept"
      = lookupStr [("host", "h"), ("accept", "x")] "accept"
    ∧ api_server_with_scalar.proxy (fun _ => .resp ⟨200, [("a", "b")], "ok"⟩)
        ⟨"GET", "run", "", [("host", "h"), ("accept", "x")], ""⟩
      = .streamed 200 [("a", "b")] "ok" :=
  ⟨by decide,
   (C4_proxy_forwarding ⟨"GET", "run", "", [("host", "h"), ("accept", "x")], ""⟩).1.2.2.2.2.2
     "accept" (by decide),
   (C4_proxy_forwarding ⟨"GET", "run", "", [("host", "h"), ("accept", "x")], ""⟩).2.2.1
     (fun _ => .resp ⟨200, [("a", "b")], "ok"⟩) ⟨200, [("a", "b")], "ok"⟩ rfl⟩

open ProxyModel in
/-- C4 counterexample: an upstream success with no headers at all comes back
from the scalar_docs proxy with three injected CORS headers, so the
response headers are not returned unchanged, refuting the claim for that
variant. -/
theorem C4_counterexample :
    scalar_docs.proxy_api (fun _ => .resp ⟨200, [], "ok"⟩)
        ⟨"GET", "run", "", [], ""⟩
      = .response 200 scalar_docs.corsHeaderList "ok"
    ∧ scalar_docs.corsHeaderList ≠ ([] : List (String × String)) :=
  ⟨rfl, by decide⟩

open ProxyModel in
/-- C5 (amended): on a network-level failure of the outbound call, neither
proxy handler propagates the exception: the api_server_with_scalar variant
returns the Python tuple of a JSON error object paired with 500 (which the
framework serves as the body of a 200 response, not as a status), and the
scalar_docs variant returns a JSON error object with status 500 — an
internal-error status, not the 503-equivalent the claim requires. -/
theorem C5_proxy_network_failure (r : InRequest) (msg : String) :
    api_server_with_scalar.proxy (fun _ => .exc msg) r
      = .tupleReturn (.obj [("error", .str msg)]) 500
    ∧ scalar_docs.proxy_api (fun _ => .exc msg) r
      = .jsonResponse (.obj [("error", .str msg)]) 500 scalar_docs.corsHeaderList :=
  ⟨rfl, rfl⟩

open ProxyModel in
/-- C5 counterexample: a refused connection on a proxied request yields
status 500 from the scalar_docs proxy error path, and 500 is not 503, so
the 503-equivalence the claim asserts fails at this input. -/
theorem C5_counterexample :
    scalar_docs.proxy_api (fun _ => .exc "Connection refused")
        ⟨"GET", "run", "", [], ""⟩
      = .jsonResponse (.obj [("error", .str "Connection refused")]) 500
          scalar_docs.corsHeaderList
    ∧ (500 : Nat) ≠ 503 :=
  ⟨rfl, by decide⟩

open AdkGateway ClaimStubs in
/-- C6 (amended): when session creation succeeds with a 200 whose JSON body
lacks the session identifier, the scalar_docs facade aborts with a 500
internal error without ever issuing the run call; the
api_server_with_scalar variant has no such guard — it reads the absent
session_id field and proceeds to the run call with a null session
identifier, failing only afterwards. -/
theorem C6_missing_session_id (msg agent user : String) (fs : List (String × Json))
    (h1 : ((lookupField fs "id").getD .null).truthy = false)
    (h2 : lookupField fs "session_id" = none) :
    scalar_docs.message_agent (stubSess fs) ⟨msg, agent, none, user⟩
      = (.httpError 500 (.internalError (.httpExc 500 (.missingSessionId (.obj fs)))),
         [.createSession agent user])
    ∧ (api_server_with_scalar.message_agent (stubSess fs) ⟨msg, agent, none, user⟩).snd
      = [.createSession agent user,
         .runCall (api_server_with_scalar.runPayload agent user .null msg)] := by
  constructor
  · simp [scalar_docs.message_agent, scalar_docs.message_agent_inner,
          scalar_docs.createBranch, stubSess, sessionIdFalsy, dictGet, liftErr,
          wrapOutcome, h1]
  · simp only [api_server_with_scalar.message_agent,
          api_server_with_scalar.message_agent_inner,
          api_server_with_scalar.createBranch, api_server_with_scalar.runStep,
          stubSess, sessionIdFalsy, dictGet, liftErr, h2,
          api_server_with_scalar.extractResponse]
    rfl

open AdkGateway ClaimStubs in
/-- C6 witness: the empty session body has neither id nor session_id; the
scalar_docs facade answers 500 with only the session call in its trace. -/
theorem C6_missing_session_id_witness :
    ((lookupField [] "id").getD .null).truthy = false
    ∧ lookupField [] "session_id" = none
    ∧ scalar_docs.message_agent (stubSess [])
        ⟨"hi", "revsup-candidate-qualify", none, "default_user"⟩
      = (.httpError 500 (.internalError (.httpExc 500 (.missingSessionId (.obj [])))),
         [.createSession "revsup-candidate-qualify" "default_user"]) :=
  ⟨rfl, rfl,
   (C6_missing_session_id "hi" "revsup-candidate-qualify" "default_user" []
      rfl rfl).1⟩

open AdkGateway ClaimStubs in
/-- C6 counterexample: with a 200 session response lacking the identifier
field, the api_server_with_scalar handler does issue a run call — its
upstream trace contains one — contradicting the claim that both variants
fail with a 500 instead of proceeding to the run call. -/
theorem C6_counterexample :
    ((api_server_with_scalar.message_agent (stubSess [])
        ⟨"hi", "revsup_candidate_qualify", none, "default_user"⟩).snd.any
      (fun c => match c with | .runCall _ => true | _ => false)) = true :=
  rfl

open McpModel in
/-- C7: for every query and every provider name absent from the loaded tool
configuration mapping, MCPTool.run (mcp_tools.py) and MCPTool.run_async
(mcp_tools_v2.py) both return the error dict whose message embeds the
provider name between single quotes, and their subprocess trace is empty —
no process is spawned. -/
theorem C7_unknown_provider (configs : List (String × McpConfig))
    (subproc : SpawnRecord → SpawnOutcome) (query name : String)
    (h : findConfig configs name = none) :
    mcp_tools.MCPTool.run configs subproc query name
      = (.obj [("error", .str (unknownMcpMsg name))], [])
    ∧ mcp_tools_v2.MCPTool.run_async configs subproc query name
      = (.obj [("error", .str (unknownMcpMsg name))], [])
    ∧ ∃ pre post, unknownMcpMsg name = pre ++ name ++ post := by
  refine ⟨?_, ?_, ⟨"MCP " ++ sq, sq ++ " not configured", ?_⟩⟩
  · unfold mcp_tools.MCPTool.run
    rw [h]
  · unfold mcp_tools_v2.MCPTool.run_async
    rw [h]
  · unfold unknownMcpMsg
    rw [String.append_assoc, String.append_assoc, String.append_assoc]

open McpModel in
/-- C7 witness: with an empty configuration mapping, querying the
perplexity-ask provider returns the naming error dict and spawns nothing. -/
theorem C7_unknown_provider_witness :
    findConfig [] "perplexity-ask" = none
    ∧ mcp_tools.MCPTool.run [] (fun _ => .spawnErr "unused") "q" "perplexity-ask"
      = (.obj [("error", .str (unknownMcpMsg "perplexity-ask"))], []) :=
  ⟨rfl,
   (C7_unknown_provider [] (fun _ => .spawnErr "unused") "q" "perplexity-ask" rfl).1⟩

open PerplexityModel in
/-- C8 (amended): for every non-empty query, whenever the async tool has a
non-empty API key configured, PerplexitySearchTool.run_async
(perplexity_tool.py) and search_perplexity_sync (perplexity_tool_sync.py)
map every simulated upstream outcome — 200 body, non-200 status with text,
transport exception — to the identical result string; on an empty query the
async variant short-circuits with its guard string while the sync function
still performs the call, so the unrestricted claim fails (see the
counterexample). -/
theorem C8_sync_async_same_result (q key : String) (outcome : HttpOutcome)
    (hq : q ≠ "") (hk : key ≠ "") :
    (perplexity_tool.PerplexitySearchTool.run_async [("query", q)] key outcome).fst
      = (perplexity_tool_sync.search_perplexity_sync q outcome).fst := by
  unfold perplexity_tool.PerplexitySearchTool.run_async
    perplexity_tool_sync.search_perplexity_sync
  have ha : perplexity_tool.argsQuery [("query", q)] = q := rfl
  rw [ha]
  rw [if_neg hq, if_neg hk]
  cases outcome <;> rfl

open PerplexityModel in
/-- C8 witness: with a non-empty query and key, a concrete 200 body is
mapped to the same banner-prefixed string by both variants. -/
theorem C8_sync_async_same_result_witness :
    ("what" : String) ≠ ""
    ∧ ("k" : String) ≠ ""
    ∧ (perplexity_tool.PerplexitySearchTool.run_async [("query", "what")] "k"
        (.ok (.obj [("choices",
          .arr [.obj [("message", .obj [("content", .str "hi")])]])]))).fst
      = (perplexity_tool_sync.search_perplexity_sync "what"
        (.ok (.obj [("choices",
          .arr [.obj [("message", .obj [("content", .str "hi")])]])]))).fst :=
  ⟨by decide, by decide,
   C8_sync_async_same_result "what" "k"
     (.ok (.obj [("choices", .arr [.obj [("message", .obj [("content", .str "hi")])]])]))
     (by decide) (by decide)⟩

open PerplexityModel in
/-- C8 counterexample: on the empty query with a successful upstream
outcome, the async tool returns its guard string without calling out while
the sync function performs the call and returns the banner string — the two
result strings differ, refuting the unrestricted equivalence. -/
theorem C8_counterexample :
    perplexity_tool.PerplexitySearchTool.run_async [("query", "")] "k"
        (.ok (.obj [("choices",
          .arr [.obj [("message", .obj [("content", .str "hi")])]])]))
      = ("Error: No search query provided", false)
    ∧ perplexity_tool_sync.search_perplexity_sync ""
        (.ok (.obj [("choices",
          .arr [.obj [("message", .obj [("content", .str "hi")])]])]))
      = ("Search Results:\n\nhi", true)
    ∧ ("Error: No search query provided" : String) ≠ "Search Results:\n\nhi" :=
  ⟨rfl, rfl, by decide⟩

open PerplexityModel McpModel in
/-- C10: whenever the args dict yields an empty (or missing, hence
defaulted to empty) query, all three guarded tools — the async direct-HTTP
tool of perplexity_tool.py, the class-based tool of perplexity_tool_sync.py
and the MCP-backed search tool of mcp_tools_v2.py — return the literal
guard string and make no outbound HTTP call and spawn no subprocess. -/
theorem C10_empty_query_guard (args : List (String × String)) (key : String)
    (outcome : HttpOutcome) (configs : List (String × McpConfig))
    (subproc : SpawnRecord → SpawnOutcome)
    (h1 : perplexity_tool.argsQuery args = "")
    (h2 : perplexity_tool_sync.argsQuery args = "")
    (h3 : mcp_tools_v2.argsQuery args = "") :
    perplexity_tool.PerplexitySearchTool.run_async args key outcome
      = ("Error: No search query provided", false)
    ∧ perplexity_tool_sync.PerplexitySearchTool.run_async args outcome
      = ("Error: No search query provided", false)
    ∧ mcp_tools_v2.PerplexitySearchTool.run_async configs subproc args
      = (.str "Error: No search query provided", []) := by
  refine ⟨?_, ?_, ?_⟩
  · unfold perplexity_tool.PerplexitySearchTool.run_async
    rw [h1]
    rfl
  · unfold perplexity_tool_sync.PerplexitySearchTool.run_async
    rw [h2]
    rfl
  · unfold mcp_tools_v2.PerplexitySearchTool.run_async
    rw [h3]
    rfl

open PerplexityModel McpModel in
/-- C10 witness: an args dict with no query entry defaults to the empty
query; all three tools return the guard string with empty traces. -/
theorem C10_empty_query_guard_witness :
    perplexity_tool.argsQuery [] = ""
    ∧ perplexity_tool.PerplexitySearchTool.run_async [] "k" (.exc "never")
      = ("Error: No search query provided", false)
    ∧ mcp_tools_v2.PerplexitySearchTool.run_async [] (fun _ => .spawnErr "never") []
      = (.str "Error: No search query provided", []) :=
  ⟨rfl,
   (C10_empty_query_guard [] "k" (.exc "never") [] (fun _ => .spawnErr "never")
      rfl rfl rfl).1,
   (C10_empty_query_guard [] "k" (.exc "never") [] (fun _ => .spawnErr "never")
      rfl rfl rfl).2.2⟩

namespace AugmentModel

theorem lookup_setField_self (fs : List (String × Json)) (k : String) (v : Json) :
    lookupField (setField fs k v) k = some v := by
  induction fs with
  | nil => simp [setField, lookupField]
  | cons ab rest ih =>
    obtain ⟨a, b⟩ := ab
    by_cases h : a = k <;> simp [setField, lookupField, h, ih]

theorem lookup_setField_ne (fs : List (String × Json)) (k k2 : String) (v : Json)
    (h : k2 ≠ k) :
    lookupField (setField fs k v) k2 = lookupField fs k2 := by
  have hkk2 : ¬ k = k2 := fun hh => h hh.symm
  induction fs with
  | nil => simp [setField, lookupField, hkk2]
  | cons ab rest ih =>
    obtain ⟨a, b⟩ := ab
    by_cases ha : a = k
    · subst ha
      simp [setField, lookupField, hkk2]
    · by_cases h2 : a = k2 <;> simp [setField, lookupField, ha, h2, h, ih]

theorem setField_of_lookup (fs : List (String × Json)) (k : String) (v : Json)
    (h : lookupField fs k = some v) : setField fs k v = fs := by
  induction fs with
  | nil => simp [lookupField] at h
  | cons ab rest ih =>
    obtain ⟨a, b⟩ := ab
    by_cases ha : a = k
    · subst ha
      simp [lookupField] at h
      simp [setField, h]
    · simp [lookupField, ha] at h
      simp [setField, ha, ih h]

theorem getPath_append (p q : List String) (j : Json) :
    getPath j (p ++ q) =
      match getPath j p with
      | .ok w => getPath w q
      | .error e => .error e := by
  induction p generalizing j with
  | nil => simp [getPath]
  | cons a p1 ih =>
    match j with
    | .obj fs =>
      simp only [List.cons_append, getPath]
      cases lookupField fs a with
      | some v => exact ih v
      | none => rfl
    | .null | .bool _ | .num _ | .str _ | .arr _ => rfl

theorem getPath_of_setPath : ∀ (p : List String) (j j2 v : Json),
    setPath j p v = .ok j2 → getPath j2 p = .ok v := by
  intro p
  induction p with
  | nil =>
    intro j j2 v h
    simp only [setPath, Except.ok.injEq] at h
    subst h
    simp [getPath]
  | cons k rest ih =>
    intro j j2 v h
    match rest, j with
    | [], .obj fs =>
      simp only [setPath, Except.ok.injEq] at h
      subst h
      simp [getPath, lookup_setField_self]
    | [], .null | [], .bool _ | [], .num _ | [], .str _ | [], .arr _ =>
      exact absurd h (by simp [setPath])
    | k2 :: r2, .obj fs =>
      simp only [setPath] at h
      cases hs : lookupField fs k with
      | none => rw [hs] at h; exact absurd h (by simp)
      | some sub =>
        rw [hs] at h
        dsimp only at h
        cases hsp : setPath sub (k2 :: r2) v with
        | error e => rw [hsp] at h; exact absurd h (by simp)
        | ok sub2 =>
          rw [hsp] at h
          dsimp only at h
          cases h
          simp only [getPath, lookup_setField_self]
          exact ih sub sub2 v hsp
    | k2 :: r2, .null | k2 :: r2, .bool _ | k2 :: r2, .num _
    | k2 :: r2, .str _ | k2 :: r2, .arr _ =>
      exact absurd h (by simp [setPath])

theorem setPath_of_getPath : ∀ (p : List String) (j v : Json),
    getPath j p = .ok v → setPath j p v = .ok j := by
  intro p
  induction p with
  | nil =>
    intro j v h
    simp only [getPath, Except.ok.injEq] at h
    subst h
    simp [setPath]
  | cons k rest ih =>
    intro j v h
    match j with
    | .obj fs =>
      simp only [getPath] at h
      cases hs : lookupField fs k with
      | none => rw [hs] at h; exact absurd h (by simp)
      | some sub =>
        rw [hs] at h
        dsimp only at h
        cases rest with
        | nil =>
          simp only [getPath, Except.ok.injEq] at h
          subst h
          simp [setPath, setField_of_lookup fs k sub hs]
        | cons k2 r2 =>
          have h2 := ih sub v h
          simp only [setPath, hs, h2]
          simp [setField_of_lookup fs k sub hs]
    | .null | .bool _ | .num _ | .str _ | .arr _ =>
      exact absurd h (by simp [getPath])

/-- Two key paths diverge when they differ at some position both still
possess: writing along one of them cannot be seen by reading the other. -/
def divergeB : List String → List String → Bool
  | a :: p, b :: q => if a = b then divergeB p q else true
  | _, _ => false

theorem getPath_setPath_diverge : ∀ (p q : List String) (j j2 v : Json),
    divergeB p q = true → setPath j q v = .ok j2 → getPath j2 p = getPath j p := by
  intro p
  induction p with
  | nil => intro q j j2 v hd _; simp [divergeB] at hd
  | cons a p1 ih =>
    intro q j j2 v hd hs
    match q with
    | [] => simp [divergeB] at hd
    | b :: q1 =>
      match j with
      | .obj fs =>
        match q1 with
        | [] =>
          simp only [setPath, Except.ok.injEq] at hs
          subst hs
          simp only [divergeB] at hd
          by_cases hab : a = b
          · rw [if_pos hab] at hd
            simp [divergeB] at hd
          · simp only [getPath, lookup_setField_ne fs b a v hab]
        | k2 :: r2 =>
          simp only [setPath] at hs
          cases hl : lookupField fs b with
          | none => rw [hl] at hs; exact absurd hs (by simp)
          | some sub =>
            rw [hl] at hs
            dsimp only at hs
            cases hsp : setPath sub (k2 :: r2) v with
            | error e => rw [hsp] at hs; exact absurd hs (by simp)
            | ok sub2 =>
              rw [hsp] at hs
              dsimp only at hs
              cases hs
              simp only [divergeB] at hd
              by_cases hab : a = b
              · subst hab
                rw [if_pos rfl] at hd
                simp only [getPath, lookup_setField_self, hl]
                exact ih (k2 :: r2) sub sub2 v hd hsp
              · simp only [getPath, lookup_setField_ne fs b a sub2 hab]
      | .null | .bool _ | .num _ | .str _ | .arr _ =>
        exact absurd hs (by simp [setPath])

theorem ensureAt_inv (j : Json) (p : List String) (k : String) (j2 : Json)
    (h : ensureAt j p k = .ok j2) :
    j2 = j ∨ setPath j (p ++ [k]) (.obj []) = .ok j2 := by
  unfold ensureAt at h
  cases hg : getPath j p with
  | error e => rw [hg] at h; exact absurd h (by simp)
  | ok w =>
    rw [hg] at h
    match w with
    | .obj fs =>
      dsimp only at h
      by_cases hk : (lookupField fs k).isSome
      · rw [if_pos hk] at h
        cases h
        exact Or.inl rfl
      · rw [if_neg hk] at h
        exact Or.inr h
    | .null | .bool _ | .num _ | .str _ | .arr _ =>
      exact absurd h (by simp)

theorem getPath_ensureAt_diverge (j : Json) (p : List String) (k : String)
    (j2 : Json) (q : List String)
    (h : ensureAt j p k = .ok j2) (hd : divergeB q (p ++ [k]) = true) :
    getPath j2 q = getPath j q := by
  cases ensureAt_inv j p k j2 h with
  | inl he => rw [he]
  | inr hs => exact getPath_setPath_diverge q (p ++ [k]) j j2 (.obj []) hd hs

theorem getPath_prefix_present (j : Json) (p : List String) (k : String)
    (rest : List String) (v : Json)
    (h : getPath j (p ++ k :: rest) = .ok v) :
    ∃ fs sub, getPath j p = .ok (.obj fs) ∧ lookupField fs k = some sub := by
  rw [getPath_append] at h
  cases hg : getPath j p with
  | error e => rw [hg] at h; exact absurd h (by simp)
  | ok w =>
    rw [hg] at h
    dsimp only at h
    match w with
    | .obj fs =>
      simp only [getPath] at h
      cases hl : lookupField fs k with
      | none => rw [hl] at h; exact absurd h (by simp)
      | some sub => exact ⟨fs, sub, rfl, hl⟩
    | .null | .bool _ | .num _ | .str _ | .arr _ =>
      exact absurd h (by simp [getPath])

theorem ensureAt_noop (j : Json) (p : List String) (k : String)
    (rest : List String) (v : Json)
    (h : getPath j (p ++ k :: rest) = .ok v) :
    ensureAt j p k = .ok j := by
  obtain ⟨fs, sub, hg, hl⟩ := getPath_prefix_present j p k rest v h
  unfold ensureAt
  rw [hg]
  dsimp only
  rw [if_pos (by simp [hl])]

theorem keyInPath_of_getPath (j : Json) (p : List String) (k : String)
    (rest : List String) (v : Json)
    (h : getPath j (p ++ k :: rest) = .ok v) :
    keyInPath j p k = .ok true := by
  obtain ⟨fs, sub, hg, hl⟩ := getPath_prefix_present j p k rest v h
  unfold keyInPath
  rw [hg]
  dsimp only
  simp [hl]

end AugmentModel

namespace AugmentModel

theorem exceptBindInv {α β : Type} {e : Except Unit α} {f : α → Except Unit β}
    {b : β} (h : e >>= f = .ok b) : ∃ a, e = .ok a ∧ f a = .ok b := by
  cases e with
  | error err => exact absurd h (by simp [Bind.bind, Except.bind])
  | ok a => exact ⟨a, rfl, h⟩

theorem ok_bind {α β : Type} (a : α) (f : α → Except Unit β) :
    (Except.ok a : Except Unit α) >>= f = f a := rfl

theorem pure_ok {α : Type} (a : α) : (pure a : Except Unit α) = .ok a := rfl

end AugmentModel

namespace api_server_with_scalar

open AugmentModel

/-- The schema augmentation of get_openapi is idempotent: a second run over
a successfully augmented document changes nothing, because every write
re-assigns a value the document already carries. -/
theorem get_openapi_augment_idem (c : AugmentConsts) (doc out : Json)
    (h : get_openapi_augment c doc = .ok out) :
    get_openapi_augment c out = .ok out := by
  unfold get_openapi_augment at h
  obtain ⟨d1, h1, h⟩ := exceptBindInv h
  obtain ⟨d2, h2, h⟩ := exceptBindInv h
  obtain ⟨d3, h3, h⟩ := exceptBindInv h
  obtain ⟨d4, h4, h⟩ := exceptBindInv h
  obtain ⟨d5, h5, h⟩ := exceptBindInv h
  obtain ⟨d6, h6, h⟩ := exceptBindInv h
  obtain ⟨d7, h7, h⟩ := exceptBindInv h
  obtain ⟨d8, h8, h⟩ := exceptBindInv h
  -- h : setPath d8 ["info", "description"] c.description = .ok out
  have f2 : getPath d2 ["paths", "/agents"] = .ok c.agentsOp :=
    getPath_of_setPath _ _ _ _ h2
  have f3a : getPath d3 ["paths", "/agents"] = .ok c.agentsOp :=
    (getPath_setPath_diverge _ _ _ _ _ (by decide) h3).trans f2
  have f3b : getPath d3 ["paths", "/message-agent"] = .ok c.messageAgentOp :=
    getPath_of_setPath _ _ _ _ h3
  have f4a : getPath d4 ["paths", "/agents"] = .ok c.agentsOp :=
    (getPath_ensureAt_diverge d3 [] "components" d4 _ h4 (by decide)).trans f3a
  have f4b : getPath d4 ["paths", "/message-agent"] = .ok c.messageAgentOp :=
    (getPath_ensureAt_diverge d3 [] "components" d4 _ h4 (by decide)).trans f3b
  have f5a : getPath d5 ["paths", "/agents"] = .ok c.agentsOp :=
    (getPath_ensureAt_diverge d4 ["components"] "schemas" d5 _ h5 (by decide)).trans f4a
  have f5b : getPath d5 ["paths", "/message-agent"] = .ok c.messageAgentOp :=
    (getPath_ensureAt_diverge d4 ["components"] "schemas" d5 _ h5 (by decide)).trans f4b
  have f6a : getPath d6 ["paths", "/agents"] = .ok c.agentsOp :=
    (getPath_setPath_diverge _ _ _ _ _ (by decide) h6).trans f5a
  have f6b : getPath d6 ["paths", "/message-agent"] = .ok c.messageAgentOp :=
    (getPath_setPath_diverge _ _ _ _ _ (by decide) h6).trans f5b
  have f6r : getPath d6 ["components", "schemas", "MessageAgentRequest"]
      = .ok c.requestSchema := getPath_of_setPath _ _ _ _ h6
  have f7a : getPath d7 ["paths", "/agents"] = .ok c.agentsOp :=
    (getPath_setPath_diverge _ _ _ _ _ (by decide) h7).trans f6a
  have f7b : getPath d7 ["paths", "/message-agent"] = .ok c.messageAgentOp :=
    (getPath_setPath_diverge _ _ _ _ _ (by decide) h7).trans f6b
  have f7r : getPath d7 ["components", "schemas", "MessageAgentRequest"]
      = .ok c.requestSchema :=
    (getPath_setPath_diverge _ _ _ _ _ (by decide) h7).trans f6r
  have f7s : getPath d7 ["components", "schemas", "MessageAgentResponse"]
      = .ok c.responseSchema := getPath_of_setPath _ _ _ _ h7
  have f8a : getPath d8 ["paths", "/agents"] = .ok c.agentsOp :=
    (getPath_setPath_diverge _ _ _ _ _ (by decide) h8).trans f7a
  have f8b : getPath d8 ["paths", "/message-agent"] = .ok c.messageAgentOp :=
    (getPath_setPath_diverge _ _ _ _ _ (by decide) h8).trans f7b
  have f8r : getPath d8 ["components", "schemas", "MessageAgentRequest"]
      = .ok c.requestSchema :=
    (getPath_setPath_diverge _ _ _ _ _ (by decide) h8).trans f7r
  have f8s : getPath d8 ["components", "schemas", "MessageAgentResponse"]
      = .ok c.responseSchema :=
    (getPath_setPath_diverge _ _ _ _ _ (by decide) h8).trans f7s
  have f8t : getPath d8 ["info", "title"] = .ok c.title :=
    getPath_of_setPath _ _ _ _ h8
  have fa : getPath out ["paths", "/agents"] = .ok c.agentsOp :=
    (getPath_setPath_diverge _ _ _ _ _ (by decide) h).trans f8a
  have fb : getPath out ["paths", "/message-agent"] = .ok c.messageAgentOp :=
    (getPath_setPath_diverge _ _ _ _ _ (by decide) h).trans f8b
  have fr : getPath out ["components", "schemas", "MessageAgentRequest"]
      = .ok c.requestSchema :=
    (getPath_setPath_diverge _ _ _ _ _ (by decide) h).trans f8r
  have fs2 : getPath out ["components", "schemas", "MessageAgentResponse"]
      = .ok c.responseSchema :=
    (getPath_setPath_diverge _ _ _ _ _ (by decide) h).trans f8s
  have ft : getPath out ["info", "title"] = .ok c.title :=
    (getPath_setPath_diverge _ _ _ _ _ (by decide) h).trans f8t
  have fd : getPath out ["info", "description"] = .ok c.description :=
    getPath_of_setPath _ _ _ _ h
  simp only [get_openapi_augment,
    ensureAt_noop out [] "paths" ["/agents"] c.agentsOp fa,
    ensureAt_noop out [] "components" ["schemas", "MessageAgentRequest"]
      c.requestSchema fr,
    ensureAt_noop out ["components"] "schemas" ["MessageAgentRequest"]
      c.requestSchema fr,
    setPath_of_getPath _ _ _ fa, setPath_of_getPath _ _ _ fb,
    setPath_of_getPath _ _ _ fr, setPath_of_getPath _ _ _ fs2,
    setPath_of_getPath _ _ _ ft, setPath_of_getPath _ _ _ fd,
    ok_bind]

end api_server_with_scalar

namespace scalar_docs

open AugmentModel

/-- The schema augmentation of openapi_proxy is idempotent: a second run
over a successfully augmented document changes nothing — every write
re-assigns a value the document already carries, and the presence of
/list-apps is unaffected by the injected paths. -/
theorem openapi_proxy_augment_idem (c : AugmentConsts) (doc out : Json)
    (h : openapi_proxy_augment c doc = .ok out) :
    openapi_proxy_augment c out = .ok out := by
  unfold openapi_proxy_augment at h
  obtain ⟨d1, h1, h⟩ := exceptBindInv h
  obtain ⟨d2, h2, h⟩ := exceptBindInv h
  obtain ⟨d3, h3, h⟩ := exceptBindInv h
  obtain ⟨d4, h4, h⟩ := exceptBindInv h
  obtain ⟨d5, h5, h⟩ := exceptBindInv h
  obtain ⟨d6, h6, h⟩ := exceptBindInv h
  obtain ⟨d7, h7, h⟩ := exceptBindInv h
  obtain ⟨d8, h8, h⟩ := exceptBindInv h
  obtain ⟨d9, h9, h⟩ := exceptBindInv h
  obtain ⟨hasLA, h10, h⟩ := exceptBindInv h
  -- facts about d9, the document before the deprecation branch
  have g2t : getPath d2 ["info", "title"] = .ok c.title :=
    (getPath_setPath_diverge _ _ _ _ _ (by decide) h2).trans
      (getPath_of_setPath _ _ _ _ h1)
  have g2d : getPath d2 ["info", "description"] = .ok c.description :=
    getPath_of_setPath _ _ _ _ h2
  have g3t : getPath d3 ["info", "title"] = .ok c.title :=
    (getPath_setPath_diverge _ _ _ _ _ (by decide) h3).trans g2t
  have g3d : getPath d3 ["info", "description"] = .ok c.description :=
    (getPath_setPath_diverge _ _ _ _ _ (by decide) h3).trans g2d
  have g3l : getPath d3 ["paths", "/list-agents"] = .ok c.listAgentsOp :=
    getPath_of_setPath _ _ _ _ h3
  have g4t : getPath d4 ["info", "title"] = .ok c.title :=
    (getPath_setPath_diverge _ _ _ _ _ (by decide) h4).trans g3t
  have g4d : getPath d4 ["info", "description"] = .ok c.description :=
    (getPath_setPath_diverge _ _ _ _ _ (by decide) h4).trans g3d
  have g4l : getPath d4 ["paths", "/list-agents"] = .ok c.listAgentsOp :=
    (getPath_setPath_diverge _ _ _ _ _ (by decide) h4).trans g3l
  have g4a : getPath d4 ["paths", "/agents"] = .ok c.agentsOp :=
    getPath_of_setPath _ _ _ _ h4
  have g5t : getPath d5 ["info", "title"] = .ok c.title :=
    (getPath_setPath_diverge _ _ _ _ _ (by decide) h5).trans g4t
  have g5d : getPath d5 ["info", "description"] = .ok c.description :=
    (getPath_setPath_diverge _ _ _ _ _ (by decide) h5).trans g4d
  have g5l : getPath d5 ["paths", "/list-agents"] = .ok c.listAgentsOp :=
    (getPath_setPath_diverge _ _ _ _ _ (by decide) h5).trans g4l
  have g5a : getPath d5 ["paths", "/agents"] = .ok c.agentsOp :=
    (getPath_setPath_diverge _ _ _ _ _ (by decide) h5).trans g4a
  have g5m : getPath d5 ["paths", "/message-agent"] = .ok c.messageAgentOp :=
    getPath_of_setPath _ _ _ _ h5
  have g6t : getPath d6 ["info", "title"] = .ok c.title :=
    (getPath_ensureAt_diverge d5 [] "components" d6 _ h6 (by decide)).trans g5t
  have g6d : getPath d6 ["info", "description"] = .ok c.description :=
    (getPath_ensureAt_diverge d5 [] "components" d6 _ h6 (by decide)).trans g5d
  have g6l : getPath d6 ["paths", "/list-agents"] = .ok c.listAgentsOp :=
    (getPath_ensureAt_diverge d5 [] "components" d6 _ h6 (by decide)).trans g5l
  have g6a : getPath d6 ["paths", "/agents"] = .ok c.agentsOp :=
    (getPath_ensureAt_diverge d5 [] "components" d6 _ h6 (by decide)).trans g5a
  have g6m : getPath d6 ["paths", "/message-agent"] = .ok c.messageAgentOp :=
    (getPath_ensureAt_diverge d5 [] "components" d6 _ h6 (by decide)).trans g5m
  have g7t : getPath d7 ["info", "title"] = .ok c.title :=
    (getPath_ensureAt_diverge d6 ["components"] "schemas" d7 _ h7 (by decide)).trans g6t
  have g7d : getPath d7 ["info", "description"] = .ok c.description :=
    (getPath_ensureAt_diverge d6 ["components"] "schemas" d7 _ h7 (by decide)).trans g6d
  have g7l : getPath d7 ["paths", "/list-agents"] = .ok c.listAgentsOp :=
    (getPath_ensureAt_diverge d6 ["components"] "schemas" d7 _ h7 (by decide)).trans g6l
  have g7a : getPath d7 ["paths", "/agents"] = .ok c.agentsOp :=
    (getPath_ensureAt_diverge d6 ["components"] "schemas" d7 _ h7 (by decide)).trans g6a
  have g7m : getPath d7 ["paths", "/message-agent"] = .ok c.messageAgentOp :=
    (getPath_ensureAt_diverge d6 ["components"] "schemas" d7 _ h7 (by decide)).trans g6m
  have g8t : getPath d8 ["info", "title"] = .ok c.title :=
    (getPath_setPath_diverge _ _ _ _ _ (by decide) h8).trans g7t
  have g8d : getPath d8 ["info", "description"] = .ok c.description :=
    (getPath_setPath_diverge _ _ _ _ _ (by decide) h8).trans g7d
  have g8l : getPath d8 ["paths", "/list-agents"] = .ok c.listAgentsOp :=
    (getPath_setPath_diverge _ _ _ _ _ (by decide) h8).trans g7l
  have g8a : getPath d8 ["paths", "/agents"] = .ok c.agentsOp :=
    (getPath_setPath_diverge _ _ _ _ _ (by decide) h8).trans g7a
  have g8m : getPath d8 ["paths", "/message-agent"] = .ok c.messageAgentOp :=
    (getPath_setPath_diverge _ _ _ _ _ (by decide) h8).trans g7m
  have g8r : getPath d8 ["components", "schemas", "MessageAgentRequest"]
      = .ok c.requestSchema := getPath_of_setPath _ _ _ _ h8
  have g9t : getPath d9 ["info", "title"] = .ok c.title :=
    (getPath_setPath_diverge _ _ _ _ _ (by decide) h9).trans g8t
  have g9d : getPath d9 ["info", "description"] = .ok c.description :=
    (getPath_setPath_diverge _ _ _ _ _ (by decide) h9).trans g8d
  have g9l : getPath d9 ["paths", "/list-agents"] = .ok c.listAgentsOp :=
    (getPath_setPath_diverge _ _ _ _ _ (by decide) h9).trans g8l
  have g9a : getPath d9 ["paths", "/agents"] = .ok c.agentsOp :=
    (getPath_setPath_diverge _ _ _ _ _ (by decide) h9).trans g8a
  have g9m : getPath d9 ["paths", "/message-agent"] = .ok c.messageAgentOp :=
    (getPath_setPath_diverge _ _ _ _ _ (by decide) h9).trans g8m
  have g9r : getPath d9 ["components", "schemas", "MessageAgentRequest"]
      = .ok c.requestSchema :=
    (getPath_setPath_diverge _ _ _ _ _ (by decide) h9).trans g8r
  have g9s : getPath d9 ["components", "schemas", "MessageAgentResponse"]
      = .ok c.responseSchema := getPath_of_setPath _ _ _ _ h9
  cases hasLA with
  | false =>
    rw [if_neg (by simp)] at h
    rw [pure_ok] at h
    injection h with hout
    subst hout
    simp only [openapi_proxy_augment,
      setPath_of_getPath _ _ _ g9t, setPath_of_getPath _ _ _ g9d,
      setPath_of_getPath _ _ _ g9l, setPath_of_getPath _ _ _ g9a,
      setPath_of_getPath _ _ _ g9m,
      ensureAt_noop d9 [] "components" ["schemas", "MessageAgentRequest"]
        c.requestSchema g9r,
      ensureAt_noop d9 ["components"] "schemas" ["MessageAgentRequest"]
        c.requestSchema g9r,
      setPath_of_getPath _ _ _ g9r, setPath_of_getPath _ _ _ g9s,
      h10, ok_bind, Bool.false_eq_true, if_false, pure_ok]
  | true =>
    rw [if_pos rfl] at h
    obtain ⟨e1, he1, h⟩ := exceptBindInv h
    obtain ⟨e2, he2, h⟩ := exceptBindInv h
    obtain ⟨e3, he3, h⟩ := exceptBindInv h
    -- h : setPath e3 ["paths", "/list-apps", "get", "deprecated"] (.bool true) = .ok out
    have q1t : getPath e1 ["info", "title"] = .ok c.title :=
      (getPath_setPath_diverge _ _ _ _ _ (by decide) he1).trans g9t
    have q1d : getPath e1 ["info", "description"] = .ok c.description :=
      (getPath_setPath_diverge _ _ _ _ _ (by decide) he1).trans g9d
    have q1l : getPath e1 ["paths", "/list-agents"] = .ok c.listAgentsOp :=
      (getPath_setPath_diverge _ _ _ _ _ (by decide) he1).trans g9l
    have q1a : getPath e1 ["paths", "/agents"] = .ok c.agentsOp :=
      (getPath_setPath_diverge _ _ _ _ _ (by decide) he1).trans g9a
    have q1m : getPath e1 ["paths", "/message-agent"] = .ok c.messageAgentOp :=
      (getPath_setPath_diverge _ _ _ _ _ (by decide) he1).trans g9m
    have q1r : getPath e1 ["components", "schemas", "MessageAgentRequest"]
        = .ok c.requestSchema :=
      (getPath_setPath_diverge _ _ _ _ _ (by decide) he1).trans g9r
    have q1s : getPath e1 ["components", "schemas", "MessageAgentResponse"]
        = .ok c.responseSchema :=
      (getPath_setPath_diverge _ _ _ _ _ (by decide) he1).trans g9s
    have q1sum : getPath e1 ["paths", "/list-apps", "get", "summary"]
        = .ok c.depSummary := getPath_of_setPath _ _ _ _ he1
    have q2t : getPath e2 ["info", "title"] = .ok c.title :=
      (getPath_setPath_diverge _ _ _ _ _ (by decide) he2).trans q1t
    have q2d : getPath e2 ["info", "description"] = .ok c.description :=
      (getPath_setPath_diverge _ _ _ _ _ (by decide) he2).trans q1d
    have q2l : getPath e2 ["paths", "/list-agents"] = .ok c.listAgentsOp :=
      (getPath_setPath_diverge _ _ _ _ _ (by decide) he2).trans q1l
    have q2a : getPath e2 ["paths", "/agents"] = .ok c.agentsOp :=
      (getPath_setPath_diverge _ _ _ _ _ (by decide) he2).trans q1a
    have q2m : getPath e2 ["paths", "/message-agent"] = .ok c.messageAgentOp :=
      (getPath_setPath_diverge _ _ _ _ _ (by decide) he2).trans q1m
    have q2r : getPath e2 ["components", "schemas", "MessageAgentRequest"]
        = .ok c.requestSchema :=
      (getPath_setPath_diverge _ _ _ _ _ (by decide) he2).trans q1r
    have q2s : getPath e2 ["components", "schemas", "MessageAgentResponse"]
        = .ok c.responseSchema :=
      (getPath_setPath_diverge _ _ _ _ _ (by decide) he2).trans q1s
    have q2sum : getPath e2 ["paths", "/list-apps", "get", "summary"]
        = .ok c.depSummary :=
      (getPath_setPath_diverge _ _ _ _ _ (by decide) he2).trans q1sum
    have q2desc : getPath e2 ["paths", "/list-apps", "get", "description"]
        = .ok c.depDescription := getPath_of_setPath _ _ _ _ he2
    have q3t : getPath e3 ["info", "title"] = .ok c.title :=
      (getPath_setPath_diverge _ _ _ _ _ (by decide) he3).trans q2t
    have q3d : getPath e3 ["info", "description"] = .ok c.description :=
      (getPath_setPath_diverge _ _ _ _ _ (by decide) he3).trans q2d
    have q3l : getPath e3 ["paths", "/list-agents"] = .ok c.listAgentsOp :=
      (getPath_setPath_diverge _ _ _ _ _ (by decide) he3).trans q2l
    have q3a : getPath e3 ["paths", "/agents"] = .ok c.agentsOp :=
      (getPath_setPath_diverge _ _ _ _ _ (by decide) he3).trans q2a
    have q3m : getPath e3 ["paths", "/message-agent"] = .ok c.messageAgentOp :=
      (getPath_setPath_diverge _ _ _ _ _ (by decide) he3).trans q2m
    have q3r : getPath e3 ["components", "schemas", "MessageAgentRequest"]
        = .ok c.requestSchema :=
      (getPath_setPath_diverge _ _ _ _ _ (by decide) he3).trans q2r
    have q3s : getPath e3 ["components", "schemas", "MessageAgentResponse"]
        = .ok c.responseSchema :=
      (getPath_setPath_diverge _ _ _ _ _ (by decide) he3).trans q2s
    have q3sum : getPath e3 ["paths", "/list-apps", "get", "summary"]
        = .ok c.depSummary :=
      (getPath_setPath_diverge _ _ _ _ _ (by decide) he3).trans q2sum
    have q3desc : getPath e3 ["paths", "/list-apps", "get", "description"]
        = .ok c.depDescription :=
      (getPath_setPath_diverge _ _ _ _ _ (by decide) he3).trans q2desc
    have q3tags : getPath e3 ["paths", "/list-apps", "get", "tags"]
        = .ok c.depTags := getPath_of_setPath _ _ _ _ he3
    have rt : getPath out ["info", "title"] = .ok c.title :=
      (getPath_setPath_diverge _ _ _ _ _ (by decide) h).trans q3t
    have rd : getPath out ["info", "description"] = .ok c.description :=
      (getPath_setPath_diverge _ _ _ _ _ (by decide) h).trans q3d
    have rl : getPath out ["paths", "/list-agents"] = .ok c.listAgentsOp :=
      (getPath_setPath_diverge _ _ _ _ _ (by decide) h).trans q3l
    have ra : getPath out ["paths", "/agents"] = .ok c.agentsOp :=
      (getPath_setPath_diverge _ _ _ _ _ (by decide) h).trans q3a
    have rm : getPath out ["paths", "/message-agent"] = .ok c.messageAgentOp :=
      (getPath_setPath_diverge _ _ _ _ _ (by decide) h).trans q3m
    have rr : getPath out ["components", "schemas", "MessageAgentRequest"]
        = .ok c.requestSchema :=
      (getPath_setPath_diverge _ _ _ _ _ (by decide) h).trans q3r
    have rs : getPath out ["components", "schemas", "MessageAgentResponse"]
        = .ok c.responseSchema :=
      (getPath_setPath_diverge _ _ _ _ _ (by decide) h).trans q3s
    have rsum : getPath out ["paths", "/list-apps", "get", "summary"]
        = .ok c.depSummary :=
      (getPath_setPath_diverge _ _ _ _ _ (by decide) h).trans q3sum
    have rdesc : getPath out ["paths", "/list-apps", "get", "description"]
        = .ok c.depDescription :=
      (getPath_setPath_diverge _ _ _ _ _ (by decide) h).trans q3desc
    have rtags : getPath out ["paths", "/list-apps", "get", "tags"]
        = .ok c.depTags :=
      (getPath_setPath_diverge _ _ _ _ _ (by decide) h).trans q3tags
    have rdep : getPath out ["paths", "/list-apps", "get", "deprecated"]
        = .ok (.bool true) := getPath_of_setPath _ _ _ _ h
    have rkey : keyInPath out ["paths"] "/list-apps" = .ok true :=
      keyInPath_of_getPath out ["paths"] "/list-apps" ["get", "summary"]
        c.depSummary rsum
    simp only [openapi_proxy_augment,
      setPath_of_getPath _ _ _ rt, setPath_of_getPath _ _ _ rd,
      setPath_of_getPath _ _ _ rl, setPath_of_getPath _ _ _ ra,
      setPath_of_getPath _ _ _ rm,
      ensureAt_noop out [] "components" ["schemas", "MessageAgentRequest"]
        c.requestSchema rr,
      ensureAt_noop out ["components"] "schemas" ["MessageAgentRequest"]
        c.requestSchema rr,
      setPath_of_getPath _ _ _ rr, setPath_of_getPath _ _ _ rs,
      rkey, ok_bind, if_true]
    simp only [setPath_of_getPath _ _ _ rsum, setPath_of_getPath _ _ _ rdesc,
      setPath_of_getPath _ _ _ rtags, setPath_of_getPath _ _ _ rdep, ok_bind]

end scalar_docs

namespace AugmentStubs

/-- Concrete injected constants for the scalar_docs augmentation witness. -/
def c2 : scalar_docs.AugmentConsts :=
  ⟨.str "T", .str "D", .str "L", .str "A", .str "M",
   .str "R1", .str "R2", .str "S", .str "DS", .str "TG"⟩

/-- Concrete injected constants for the api_server_with_scalar witness. -/
def c1 : api_server_with_scalar.AugmentConsts :=
  ⟨.str "A", .str "M", .str "R1", .str "R2", .str "T", .str "D"⟩

/-- A minimal upstream schema document with info and paths objects. -/
def doc0 : Json := .obj [("info", .obj []), ("paths", .obj [])]

/-- Result of the scalar_docs augmentation on doc0. -/
def out2 : Json :=
  .obj [("info", .obj [("title", .str "T"), ("description", .str "D")]),
        ("paths", .obj [("/list-agents", .str "L"), ("/agents", .str "A"),
                        ("/message-agent", .str "M")]),
        ("components", .obj [("schemas",
          .obj [("MessageAgentRequest", .str "R1"),
                ("MessageAgentResponse", .str "R2")])])]

/-- Result of the api_server_with_scalar augmentation on doc0. -/
def out1 : Json :=
  .obj [("info", .obj [("title", .str "T"), ("description", .str "D")]),
        ("paths", .obj [("/agents", .str "A"), ("/message-agent", .str "M")]),
        ("components", .obj [("schemas",
          .obj [("MessageAgentRequest", .str "R1"),
                ("MessageAgentResponse", .str "R2")])])]

end AugmentStubs

/-- C9: the schema augmentation of both gateway variants is idempotent on
the injected keys — applying the augmentation to its own successful output
returns that output unchanged, for every upstream document and every choice
of the injected constant payloads, so the injected endpoint descriptions
are never duplicated (dict assignment replaces; the deprecation branch
re-marks the same entries). -/
theorem C9_augmentation_idempotent :
    (∀ (c : scalar_docs.AugmentConsts) (doc out : Json),
        scalar_docs.openapi_proxy_augment c doc = .ok out →
        scalar_docs.openapi_proxy_augment c out = .ok out)
    ∧ (∀ (c : api_server_with_scalar.AugmentConsts) (doc out : Json),
        api_server_with_scalar.get_openapi_augment c doc = .ok out →
        api_server_with_scalar.get_openapi_augment c out = .ok out) :=
  ⟨scalar_docs.openapi_proxy_augment_idem,
   api_server_with_scalar.get_openapi_augment_idem⟩

open AugmentStubs in
/-- C9 witness: on a concrete minimal schema document both augmentations
succeed, and re-running each on its own output reproduces it exactly. -/
theorem C9_augmentation_idempotent_witness :
    scalar_docs.openapi_proxy_augment c2 doc0 = .ok out2
    ∧ scalar_docs.openapi_proxy_augment c2 out2 = .ok out2
    ∧ api_server_with_scalar.get_openapi_augment c1 doc0 = .ok out1
    ∧ api_server_with_scalar.get_openapi_augment c1 out1 = .ok out1 :=
  ⟨rfl, C9_augmentation_idempotent.1 c2 doc0 out2 rfl,
   rfl, C9_augmentation_idempotent.2 c1 doc0 out1 rfl⟩
